import Mathlib

/-!
# Verification of the 4D physics sandbox (`physics.js`, `game.js`)

Shallow embedding of the force model of `physics.js` and of the strategy
controller and action layer of `game.js`.

* The average that `updateStrategy` compares with its thresholds is computed in
  IEEE-754 double precision (`JsNumber`, `roundToDouble`: every sum and the quotient
  rounded to the nearest double, ties to even), on samples that are finite numbers.
  The learning rate is computed in exact rational arithmetic, and the exploration
  rates and the `Math.random()` draws are the rationals written.
* Numbers that go through `Math.sqrt`, `Math.sin`, `Math.cos` (positions, forces,
  radii) are reals `ℝ`; rounding is not modelled.
* A JavaScript `TypeError` (reading a property of `undefined`) is an
  `Except.error`; `undefined` itself is `Option.none`.
* Object identity (`!==`) is identity of the body `id`, which the engine hands
  out from a global counter.
* `Math.random()` is a stream `rand : ℕ → ℚ` read at a cursor.
-/

set_option autoImplicit false

namespace Game4D

/-! ## The matter-js vector operations -/

namespace Matter

/-- Modelled from the spec: the 2D vector of the matter-js library (`Matter.Vector`,
not under src/), a pair of coordinates `x`, `y`. -/
@[ext]
structure Vector where
  x : ℝ
  y : ℝ

namespace Vector

/-- Modelled from the spec: `Matter.Vector.create(x, y)` of matter-js. -/
def create (x y : ℝ) : Vector := ⟨x, y⟩

/-- Modelled from the spec: `Matter.Vector.sub(a, b)` of matter-js, the componentwise
difference `a - b`. -/
def sub (vectorA vectorB : Vector) : Vector :=
  ⟨vectorA.x - vectorB.x, vectorA.y - vectorB.y⟩

/-- Modelled from the spec: `Matter.Vector.magnitude(v)` of matter-js, the Euclidean
length `Math.sqrt(x*x + y*y)`. -/
noncomputable def magnitude (vector : Vector) : ℝ :=
  Real.sqrt (vector.x * vector.x + vector.y * vector.y)

/-- Modelled from the spec: `Matter.Vector.mult(v, s)` of matter-js, scaling by a
scalar. -/
def mult (vector : Vector) (scalar : ℝ) : Vector :=
  ⟨vector.x * scalar, vector.y * scalar⟩

/-- Modelled from the spec: `Matter.Vector.neg(v)` of matter-js, the opposite
vector. -/
def neg (vector : Vector) : Vector := ⟨-vector.x, -vector.y⟩

/-- Modelled from the spec: `Matter.Vector.normalise(v)` of matter-js: the zero
vector when the magnitude is `0`, otherwise `v` divided by its magnitude. -/
noncomputable def normalise (vector : Vector) : Vector :=
  if magnitude vector = 0 then ⟨0, 0⟩
  else ⟨vector.x / magnitude vector, vector.y / magnitude vector⟩

/-- Modelled from the spec: `Matter.Vector.dot(a, b)` of matter-js. -/
def dot (vectorA vectorB : Vector) : ℝ :=
  vectorA.x * vectorB.x + vectorA.y * vectorB.y

/-- Modelled from the spec: `Matter.Vector.rotate(v, angle)` of matter-js, the
rotation of `v` about the origin. -/
noncomputable def rotate (vector : Vector) (angle : ℝ) : Vector :=
  ⟨vector.x * Real.cos angle - vector.y * Real.sin angle,
   vector.x * Real.sin angle + vector.y * Real.cos angle⟩

end Vector

end Matter

/-! ## Bodies -/

/-- The JavaScript exceptions the code can throw. -/
inductive JsError where
  /-- Reading or writing a property of `undefined`. -/
  | typeError
  deriving DecidableEq, Repr

/-- The record `body.properties` that `createBody` (physics.js, lines 108-113)
attaches; `entanglement` holds the `id` of the partner body, `none` for `null`. -/
structure Properties where
  mass : ℝ
  charge : ℝ
  spin : ℝ
  entanglement : Option ℕ

/-- The fields of a matter-js body that the repository reads or writes.
`fillStyle` is `body.render.fillStyle`; `fourthDimension` and `properties` are
`none` while they are `undefined` (a body made by `Matter.Bodies.circle` has
neither until the repository sets them). -/
structure Body where
  id : ℕ
  position : Matter.Vector
  velocity : Matter.Vector
  force : Matter.Vector
  angle : ℝ
  mass : ℝ
  circleRadius : ℝ
  fillStyle : String
  fourthDimension : Option ℝ
  properties : Option Properties

namespace Matter

namespace Body

/-- Modelled from the spec: `Matter.Body.setPosition(body, position)` of matter-js
moves the body to `position`. -/
def setPosition (body : Game4D.Body) (position : Vector) : Game4D.Body :=
  { body with position := position }

/-- Modelled from the spec: `Matter.Body.setVelocity(body, velocity)` of matter-js
sets the velocity. -/
def setVelocity (body : Game4D.Body) (velocity : Vector) : Game4D.Body :=
  { body with velocity := velocity }

/-- Modelled from the spec: `Matter.Body.rotate(body, rotation)` of matter-js turns
the body by `rotation` radians about its own position. -/
def rotate (body : Game4D.Body) (rotation : ℝ) : Game4D.Body :=
  { body with angle := body.angle + rotation }

/-- Modelled from the spec: `Matter.Body.applyForce(body, position, force)` of
matter-js adds `force` to the force accumulated on the body. -/
def applyForce (body : Game4D.Body) (_position : Vector) (force : Vector) : Game4D.Body :=
  { body with force := ⟨body.force.x + force.x, body.force.y + force.y⟩ }

/-- Modelled from the spec: `Matter.Body.scale(body, scaleX, scaleY)` of matter-js
rescales the body about its position: a uniform scale multiplies the radius by the
factor and the area, hence the mass, by `scaleX * scaleY`. -/
def scale (body : Game4D.Body) (scaleX scaleY : ℝ) : Game4D.Body :=
  { body with circleRadius := body.circleRadius * scaleX, mass := body.mass * (scaleX * scaleY) }

end Body

namespace Bodies

/-- Modelled from the spec: `Matter.Bodies.circle(x, y, radius, options)` of
matter-js: a new body at rest centred at `(x, y)` with the given radius and the fill
colour of `options.render`; `id` is the identity the engine assigns and `mass` the
mass it derives from the radius. -/
def circle (id : ℕ) (mass : ℝ) (x y radius : ℝ) (fillStyle : String) : Game4D.Body :=
  { id := id, position := ⟨x, y⟩, velocity := ⟨0, 0⟩, force := ⟨0, 0⟩, angle := 0,
    mass := mass, circleRadius := radius, fillStyle := fillStyle,
    fourthDimension := none, properties := none }

end Bodies

end Matter

/-! ## physics.js -/

/-- The constant `G` of `calculate4DGravitationalForce` (physics.js, line 45). -/
noncomputable def G : ℝ := 6.674e-11

/-- The constant `k` of `calculateChargeForce` (physics.js, line 78). -/
noncomputable def k : ℝ := 8.99e9

/-- The function `calculate4DGravitationalForce` of physics.js, lines 44-50. -/
noncomputable def calculate4DGravitationalForce (bodyA bodyB : Body) : Matter.Vector :=
  let distanceVector := Matter.Vector.sub bodyB.position bodyA.position
  let distance := Matter.Vector.magnitude distanceVector + 1e-10
  let forceMagnitude := (G * bodyA.mass * bodyB.mass) / (distance * distance)
  Matter.Vector.mult (Matter.Vector.normalise distanceVector) forceMagnitude

/-- The function `calculateChargeForce` of physics.js, lines 77-83. Reading
`.charge` of an `undefined` `properties` throws. -/
noncomputable def calculateChargeForce (objA objB : Body) : Except JsError Matter.Vector :=
  match objA.properties, objB.properties with
  | some propsA, some propsB =>
    let distanceVector := Matter.Vector.sub objB.position objA.position
    let distance := Matter.Vector.magnitude distanceVector + 1e-10
    let forceMagnitude := (k * propsA.charge * propsB.charge) / (distance * distance)
    .ok (Matter.Vector.mult (Matter.Vector.normalise distanceVector) forceMagnitude)
  | _, _ => .error .typeError

/-- The Euclidean distance between two positions, as the specification uses it. -/
noncomputable def euclideanDistance (positionA positionB : Matter.Vector) : ℝ :=
  Real.sqrt ((positionB.x - positionA.x) ^ 2 + (positionB.y - positionA.y) ^ 2)

/-- A body with the given identity, position, engine mass and charge, at rest, for
the concrete instances. -/
def sampleBody (id : ℕ) (x y mass charge : ℝ) : Body :=
  { id := id, position := ⟨x, y⟩, velocity := ⟨0, 0⟩, force := ⟨0, 0⟩, angle := 0,
    mass := mass, circleRadius := 20, fillStyle := "#000000", fourthDimension := some 0,
    properties := some ⟨mass, charge, 0, none⟩ }

/-- Writes the new state of a body back to every place of the array that holds
it (in JavaScript the array holds references, so a mutation is seen everywhere). -/
def storeBody (objects : List Body) (obj : Body) : List Body :=
  objects.map fun o => if o.id = obj.id then obj else o

/-- The body of the outer `forEach` of `applyQuantumEffects` (physics.js, lines
54-73) for the body with identity `id`: tunnelling, spin-orbit force, then the
charge force of every other body of the array. -/
noncomputable def applyQuantumEffectsTo (objects : List Body) (rand : ℕ → ℚ) (cursor : ℕ)
    (id : ℕ) : Except JsError (List Body × ℕ) :=
  match objects.find? (fun o => o.id = id) with
  | none => .ok (objects, cursor)
  | some obj =>
    -- Quantum tunneling
    let tunnelled : Body × ℕ :=
      if rand cursor < 0.01 then
        let tunnelDistance : ℝ := (((rand (cursor + 1) - 0.5) * 50 : ℚ) : ℝ)
        (Matter.Body.setPosition obj
          ⟨obj.position.x + tunnelDistance, obj.position.y + tunnelDistance⟩, cursor + 2)
      else (obj, cursor + 1)
    let obj := tunnelled.1
    -- Spin-orbit interaction
    match obj.properties with
    | none => .error .typeError
    | some props =>
      let spinForce := Matter.Vector.rotate (Matter.Vector.create 0.1 0) props.spin
      let obj := Matter.Body.applyForce obj obj.position spinForce
      -- Charge interaction
      let objects := storeBody objects obj
      (objects.foldlM (fun (obj : Body) (other : Body) =>
          if other.id ≠ obj.id then
            (calculateChargeForce obj other).map fun chargeForce =>
              Matter.Body.applyForce obj obj.position chargeForce
          else .ok obj) obj).map fun obj => (storeBody objects obj, tunnelled.2)

/-- The function `applyQuantumEffects` of physics.js, lines 52-75: the bodies of the
array are visited in order, each visit seeing the mutations of the earlier ones. -/
noncomputable def applyQuantumEffects (objects : List Body) (rand : ℕ → ℚ) (cursor : ℕ) :
    Except JsError (List Body × ℕ) :=
  (objects.map fun o => o.id).foldlM
    (fun (state : List Body × ℕ) id => applyQuantumEffectsTo state.1 rand state.2 id)
    (objects, cursor)

/-- The function `update4DObject` of physics.js, lines 85-104. A body without
`properties` makes line 101 throw. With `properties` but an `undefined`
`fourthDimension` the call returns normally and leaves the body with `NaN` as its
`fourthDimension`, position and scale; such a body has no real coordinates and the
result is `none`. -/
noncomputable def update4DObject (object : Body) : Except JsError (Option Body) :=
  match object.properties, object.fourthDimension with
  | none, _ => .error .typeError
  | some _, none => .ok none
  | some props, some fourthDimension0 =>
    let fourthDimension := fourthDimension0 + 0.01
    -- 4D rotation
    let w := Real.sin fourthDimension * 0.5
    let x := object.position.x + Real.cos fourthDimension * w
    let y := object.position.y + Real.sin fourthDimension * w
    let object := Matter.Body.setPosition
      { object with fourthDimension := some fourthDimension } ⟨x, y⟩
    -- 4D scaling
    let scale := 1 + 0.1 * Real.sin fourthDimension
    let object := Matter.Body.scale object scale scale
    -- Apply forces based on object properties
    let forceX := props.charge * Real.cos props.spin * 0.1
    let forceY := props.charge * Real.sin props.spin * 0.1
    .ok (some (Matter.Body.applyForce object object.position ⟨forceX, forceY⟩))

/-- The loop `fourDObjects.forEach(update4DObject)` of game.js, line 132: every body
is updated in turn, the first throw ends the loop; the result is `none` when some
body was left with `NaN` coordinates. -/
noncomputable def forEachUpdate4DObject : List Body → Except JsError (Option (List Body))
  | [] => .ok (some [])
  | object :: rest =>
    match update4DObject object with
    | .error e => .error e
    | .ok updated =>
      match forEachUpdate4DObject rest with
      | .error e => .error e
      | .ok updatedRest =>
        .ok (match updated, updatedRest with
          | some body, some bodies => some (body :: bodies)
          | _, _ => none)

/-- The `properties` record of every body, by body `id`, `none` for a body whose
`properties` is `undefined` (a body made by `Matter.Bodies.circle`): the part of the
heap that `entangleObjects` reads and writes. -/
abbrev PropertiesHeap := ℕ → Option Properties

/-- The heap a call leaves behind and the exception it threw, if any. -/
structure Completion where
  heap : PropertiesHeap
  thrown : Option JsError

/-- The function `entangleObjects` of physics.js, lines 118-121, on the bodies with
identities `obj1` and `obj2`: two field writes, in this order; a write to
`.entanglement` of an `undefined` `properties` throws, the earlier write staying
done. -/
def entangleObjects (heap : PropertiesHeap) (obj1 obj2 : ℕ) : Completion :=
  match heap obj1 with
  | none => { heap := heap, thrown := some .typeError }
  | some properties1 =>
    let heap1 : PropertiesHeap := fun i =>
      if i = obj1 then some { properties1 with entanglement := some obj2 } else heap i
    match heap1 obj2 with
    | none => { heap := heap1, thrown := some .typeError }
    | some properties2 =>
      { heap := fun i =>
          if i = obj2 then some { properties2 with entanglement := some obj1 } else heap1 i
        thrown := none }

/-- The body that `body.properties.entanglement` refers to, `none` when it is `null`
or the body has no `properties`. -/
def partner (heap : PropertiesHeap) (body : ℕ) : Option ℕ :=
  (heap body).bind fun properties => properties.entanglement

/-- Entanglement is mutual on a collection of bodies: whenever a body `a` of the
collection has `entanglement` set to `b`, body `b` has `entanglement` set to `a`. -/
def Mutual (heap : PropertiesHeap) (collection : List ℕ) : Prop :=
  ∀ a ∈ collection, ∀ b, partner heap a = some b → partner heap b = some a

/-- Body `x` has a `properties` record, and its partner, if any, is `x` itself or
`y`. -/
def PartnerWithin (heap : PropertiesHeap) (x y : ℕ) : Prop :=
  (heap x).isSome = true
    ∧ (partner heap x = none ∨ partner heap x = some x ∨ partner heap x = some y)

/-- A sequence of `entangleObjects` calls, run left to right; an exception ends
it. -/
def entangleAll (heap : PropertiesHeap) : List (ℕ × ℕ) → Completion
  | [] => { heap := heap, thrown := none }
  | call :: rest =>
    match (entangleObjects heap call.1 call.2).thrown with
    | some e => { heap := (entangleObjects heap call.1 call.2).heap, thrown := some e }
    | none => entangleAll (entangleObjects heap call.1 call.2).heap rest

/-- Every call of the sequence is made on two bodies that have `properties` and whose
partners at the time of the call, if any, are among the two. -/
def Admissible : PropertiesHeap → List (ℕ × ℕ) → Prop
  | _, [] => True
  | heap, call :: rest =>
    PartnerWithin heap call.1 call.2 ∧ PartnerWithin heap call.2 call.1
      ∧ Admissible (entangleObjects heap call.1 call.2).heap rest

/-- The `properties` that `createBody` gives (physics.js, lines 108-113), with the
random draws fixed: `entanglement` is `null` for every body. -/
def freshHeap : PropertiesHeap := fun _ =>
  some { mass := 1, charge := 0, spin := 0, entanglement := none }

/-- The bodies that game.js creates with `Matter.Bodies.circle` (lines 101-107,
208-213): none has `properties`. -/
def circleHeap : PropertiesHeap := fun _ => none

/-! ## JavaScript numbers -/

/-- A JavaScript number: a finite value (the sign of zero is not kept, no comparison
sees it), an infinity, or `NaN`. -/
inductive JsNumber where
  | finite (value : ℚ)
  | posInf
  | negInf
  | nan
  deriving DecidableEq

/-- The number of halvings that bring `n` below 2, at most `fuel` of them. -/
def halvings : ℕ → ℕ → ℕ
  | 0, _ => 0
  | fuel + 1, n => if n < 2 then 0 else halvings fuel (n / 2) + 1

/-- The binary logarithm of a positive natural number, rounded down. -/
def natLog2 (n : ℕ) : ℕ := halvings n n

/-- The integer `e` with `2^e ≤ n/d < 2^(e+1)`, for positive `n` and `d`. -/
def floorLog2 (n d : ℕ) : ℤ :=
  let k : ℤ := (natLog2 n : ℤ) - (natLog2 d : ℤ)
  if (if 0 ≤ k then d * 2 ^ k.toNat ≤ n else d ≤ n * 2 ^ (-k).toNat) then k else k - 1

/-- The integer nearest to `n/d`, the even one of the two on a tie. -/
def roundHalfEven (n d : ℕ) : ℕ :=
  let m := n / d
  let r := n % d
  if 2 * r < d then m else if d < 2 * r then m + 1 else if m % 2 = 0 then m else m + 1

/-- The positive rational `n/d` rounded to 53 significant bits (fewer below
`2^-1022`, where the spacing of the doubles stays `2^-1074`). -/
def roundMagnitude (n d : ℕ) : ℚ :=
  let e := floorLog2 n d
  let p : ℤ := max (e - 52) (-1074)
  if 0 ≤ p then ((roundHalfEven n (d * 2 ^ p.toNat) * 2 ^ p.toNat : ℕ) : ℚ)
  else mkRat (roundHalfEven (n * 2 ^ (-p).toNat) d) (2 ^ (-p).toNat)

/-- The double nearest to a rational (IEEE-754 binary64, round to nearest, ties to
even); a magnitude that rounds to `2^1024` or more overflows to an infinity. -/
def roundToDouble (q : ℚ) : JsNumber :=
  if q = 0 then .finite 0
  else
    let magnitude := roundMagnitude q.num.natAbs q.den
    if 2 ^ 1024 ≤ magnitude then (if 0 < q then .posInf else .negInf)
    else .finite (if 0 < q then magnitude else -magnitude)

/-- The value of a decimal literal of the source: the double nearest to it. -/
def double (q : ℚ) : ℚ :=
  match roundToDouble q with
  | .finite value => value
  | _ => 0

namespace JsNumber

/-- The JavaScript `a + b` on numbers. -/
def add : JsNumber → JsNumber → JsNumber
  | .finite a, .finite b => roundToDouble (a + b)
  | .nan, _ => .nan
  | _, .nan => .nan
  | .posInf, .negInf => .nan
  | .negInf, .posInf => .nan
  | .posInf, _ => .posInf
  | _, .posInf => .posInf
  | .negInf, _ => .negInf
  | _, .negInf => .negInf

/-- The JavaScript `a / n` for an array length `n`. -/
def divLength : JsNumber → ℕ → JsNumber
  | .finite a, n =>
    if n = 0 then (if a = 0 then .nan else if 0 < a then .posInf else .negInf)
    else roundToDouble (a / n)
  | .posInf, _ => .posInf
  | .negInf, _ => .negInf
  | .nan, _ => .nan

/-- The JavaScript `a < b` on numbers: false when either side is `NaN`. -/
def lt : JsNumber → JsNumber → Bool
  | .finite a, .finite b => decide (a < b)
  | .finite _, .posInf => true
  | .negInf, .finite _ => true
  | .negInf, .posInf => true
  | _, _ => false

/-- The JavaScript `a <= b` on numbers: false when either side is `NaN`. -/
def le : JsNumber → JsNumber → Bool
  | .finite a, .finite b => decide (a ≤ b)
  | .finite _, .posInf => true
  | .negInf, .finite _ => true
  | .negInf, .posInf => true
  | .posInf, .posInf => true
  | .negInf, .negInf => true
  | _, _ => false

end JsNumber

/-! ## game.js: the strategy controller -/

/-- The state of the object `metacognitiveController` (game.js, lines 20-24). -/
structure MetacognitiveController where
  learningRate : ℚ
  explorationRate : ℚ
  strategy : String
  performanceHistory : List ℚ

/-- The initial `metacognitiveController` of game.js, lines 20-24 (the values that
`resetGame` restores, lines 290-293). -/
def metacognitiveController : MetacognitiveController :=
  { learningRate := 0.01, explorationRate := 0.1, strategy := "random",
    performanceHistory := [] }

/-- The constant `averagePerformance` of `updateStrategy` (game.js, line 32):
`reduce((a, b) => a + b, 0) / length` in double precision, the samples added from the
left starting at 0. A sample is read as the double nearest to it, which is the sample
itself when it is a double. -/
def averagePerformance (performanceHistory : List ℚ) : JsNumber :=
  (performanceHistory.foldl (fun a b => JsNumber.add a (roundToDouble b)) (.finite 0)).divLength
    performanceHistory.length

/-- The method `metacognitiveController.updateStrategy` of game.js, lines 26-48
(`updateAIInfoDisplay` only writes to the page). -/
def updateStrategy (self : MetacognitiveController) (performance : ℚ) :
    MetacognitiveController :=
  let pushed := self.performanceHistory ++ [performance]
  let performanceHistory := if pushed.length > 10 then pushed.tail else pushed
  let averagePerformance := averagePerformance performanceHistory
  let learningRate : ℚ := max 0.001 (self.learningRate * 0.99)
  if averagePerformance.lt (roundToDouble 0.3) then
    { learningRate := learningRate, explorationRate := 0.3, strategy := "exploratory",
      performanceHistory := performanceHistory }
  else if averagePerformance.lt (roundToDouble 0.7) then
    { learningRate := learningRate, explorationRate := 0.1, strategy := "balanced",
      performanceHistory := performanceHistory }
  else
    { learningRate := learningRate, explorationRate := 0.05, strategy := "exploitative",
      performanceHistory := performanceHistory }

/-- The controller after consecutive `updateStrategy` calls, one per sample. -/
def updateStrategyAll (self : MetacognitiveController) (samples : List ℚ) :
    MetacognitiveController :=
  samples.foldl updateStrategy self

/-! ## game.js: actions on the active set -/

/-- The five strings of `actionTypes` (game.js, line 149). -/
inductive ActionType where
  | merge
  | split
  | accelerate
  | decelerate
  | rotate
  deriving DecidableEq, Repr

/-- The object `{ type, object }` returned by `exploreRandomAction`; either field is
`none` when the array access that produced it gave `undefined`. -/
structure Action where
  type : Option ActionType
  object : Option Body

/-- The module state of game.js that the actions touch: the active set
`fourDObjects`, the identities of the bodies of the engine `world`, the engine's next
fresh body identity, and the controller. -/
structure Game where
  fourDObjects : List Body
  world : List ℕ
  nextId : ℕ
  controller : MetacognitiveController

/-- JavaScript array access `array[i]`: `undefined` outside the array. -/
def arrayAt {α : Type} (array : List α) (i : ℤ) : Option α :=
  if 0 ≤ i then array[i.toNat]? else none

/-- The function `exploreRandomAction` of game.js, lines 148-153; it reads two
random draws. -/
def exploreRandomAction (g : Game) (rand : ℕ → ℚ) (cursor : ℕ) : Action × ℕ :=
  let actionTypes : List ActionType :=
    [.merge, .split, .accelerate, .decelerate, .rotate]
  let randomAction := arrayAt actionTypes ⌊rand cursor * actionTypes.length⌋
  let randomObject := arrayAt g.fourDObjects ⌊rand (cursor + 1) * g.fourDObjects.length⌋
  ({ type := randomAction, object := randomObject }, cursor + 2)

/-- The function `exploitBestAction` of game.js, lines 155-158. -/
def exploitBestAction (g : Game) (rand : ℕ → ℚ) (cursor : ℕ) : Action × ℕ :=
  exploreRandomAction g rand cursor

/-- The function `findNearestObject` of game.js, lines 189-202; `minDistance` is
`none` while it is `Infinity`. With an `undefined` argument every body of the array
is "other" and reading `obj.position` throws. -/
noncomputable def findNearestObject (g : Game) (obj : Option Body) :
    Except JsError (Option Body) :=
  (g.fourDObjects.foldlM (fun (state : Option Body × Option ℝ) (other : Body) =>
      match obj with
      | none => Except.error JsError.typeError
      | some obj =>
        if other.id ≠ obj.id then
          let distance := Matter.Vector.magnitude (Matter.Vector.sub obj.position other.position)
          match state.2 with
          | none => Except.ok (some other, some distance)
          | some minDistance =>
            if distance < minDistance then Except.ok (some other, some distance)
            else Except.ok state
        else Except.ok state)
    (none, none)).map fun (state : Option Body × Option ℝ) => state.1

/-- The function `interact4DObjects` of game.js, lines 357-360: it only logs. -/
def interact4DObjects (g : Game) (_obj1 _obj2 : Body) : Game := g

/-- The function `splitObject` of game.js, lines 204-223. `circleMass` is the mass
the engine gives a circle of a given radius. -/
noncomputable def splitObject (circleMass : ℝ → ℝ) (g : Game) (obj : Option Body) :
    Except JsError Game :=
  match obj with
  | none => .error .typeError
  | some obj =>
    if obj.circleRadius > 10 then
      let newRadius := obj.circleRadius / Real.sqrt 2
      let offset : ℝ := 5
      let newObj1 := Matter.Bodies.circle g.nextId (circleMass newRadius)
        (obj.position.x - offset) (obj.position.y - offset) newRadius obj.fillStyle
      let newObj2 := Matter.Bodies.circle (g.nextId + 1) (circleMass newRadius)
        (obj.position.x + offset) (obj.position.y + offset) newRadius obj.fillStyle
      let newObj1 := { newObj1 with fourthDimension := obj.fourthDimension }
      let newObj2 := { newObj2 with fourthDimension := obj.fourthDimension }
      .ok { g with
        world := (g.world.filter fun i => i ≠ obj.id) ++ [newObj1.id, newObj2.id]
        fourDObjects := (g.fourDObjects.filter fun o => o.id ≠ obj.id) ++ [newObj1, newObj2]
        nextId := g.nextId + 2 }
    else .ok g

/-- The function `applyAction` of game.js, lines 160-187. The `switch` has no
`default`, so an `undefined` type does nothing. With an `undefined` `action.object`,
'accelerate' and 'decelerate' throw on reading `action.object.velocity`, and 'rotate'
throws inside `Matter.Body.rotate`, which reads `body.angle`. -/
noncomputable def applyAction (circleMass : ℝ → ℝ) (g : Game) (action : Action) :
    Except JsError Game :=
  match action.type with
  | some .merge =>
    (findNearestObject g action.object).bind fun nearbyObject =>
      match nearbyObject, action.object with
      | some nearbyObject, some object => .ok (interact4DObjects g object nearbyObject)
      | _, _ => .ok g
  | some .split => splitObject circleMass g action.object
  | some .accelerate =>
    match action.object with
    | none => .error .typeError
    | some object =>
      let moved := Matter.Body.setVelocity object
        ⟨object.velocity.x * 1.5, object.velocity.y * 1.5⟩
      .ok { g with fourDObjects := storeBody g.fourDObjects moved }
  | some .decelerate =>
    match action.object with
    | none => .error .typeError
    | some object =>
      let moved := Matter.Body.setVelocity object
        ⟨object.velocity.x * 0.5, object.velocity.y * 0.5⟩
      .ok { g with fourDObjects := storeBody g.fourDObjects moved }
  | some .rotate =>
    match action.object with
    | none => .error .typeError
    | some object =>
      let turned := Matter.Body.rotate object (Real.pi / 4)
      .ok { g with fourDObjects := storeBody g.fourDObjects turned }
  | none => .ok g

/-- The function `executeAIStrategy` of game.js, lines 137-146; it returns the new
state, the action and the cursor of the random stream. -/
noncomputable def executeAIStrategy (circleMass : ℝ → ℝ) (g : Game) (rand : ℕ → ℚ)
    (cursor : ℕ) : Except JsError (Game × Action × ℕ) :=
  let chosen : Action × ℕ :=
    if rand cursor < g.controller.explorationRate then
      exploreRandomAction g rand (cursor + 1)
    else
      exploitBestAction g rand (cursor + 1)
  (applyAction circleMass g chosen.1).map fun g => (g, chosen.1, chosen.2)

/-- One simulation tick on the bodies, the steps of `updateGame` at game.js lines
124, 131 and 132: `executeAIStrategy()`, then `applyQuantumEffects(fourDObjects)`,
then `fourDObjects.forEach(update4DObject)`. The result is `none` when the tick
returns with a body left at `NaN` coordinates. -/
noncomputable def simulationTick (circleMass : ℝ → ℝ) (g : Game) (rand : ℕ → ℚ)
    (cursor : ℕ) : Except JsError (Option Game) :=
  (executeAIStrategy circleMass g rand cursor).bind fun acted =>
    (applyQuantumEffects acted.1.fourDObjects rand acted.2.2).bind fun affected =>
      (forEachUpdate4DObject affected.1).map fun updated =>
        updated.map fun bodies => { acted.1 with fourDObjects := bodies }

/-- The module state with no body: an empty active set and an empty world, the
controller in its initial state. -/
def emptyGame : Game :=
  { fourDObjects := [], world := [], nextId := 0, controller := metacognitiveController }

end Game4D

namespace Game4D

/-! ## Lemmas on the vector operations -/

namespace Matter.Vector

theorem magnitude_nonneg (v : Vector) : 0 ≤ magnitude v := Real.sqrt_nonneg _

theorem magnitude_sq (v : Vector) : magnitude v * magnitude v = v.x * v.x + v.y * v.y :=
  Real.mul_self_sqrt (add_nonneg (mul_self_nonneg _) (mul_self_nonneg _))

theorem magnitude_neg (v : Vector) : magnitude (neg v) = magnitude v := by
  simp [magnitude, neg]

theorem sub_swap (a b : Vector) : sub a b = neg (sub b a) := by
  ext <;> simp [sub, neg]

theorem normalise_neg (v : Vector) : normalise (neg v) = neg (normalise v) := by
  unfold normalise
  rw [magnitude_neg]
  split_ifs with h
  · ext <;> simp [neg]
  · ext <;> simp [neg, neg_div]

theorem mult_neg (v : Vector) (s : ℝ) : mult (neg v) s = neg (mult v s) := by
  ext <;> simp [mult, neg]

theorem magnitude_mult (v : Vector) (s : ℝ) : magnitude (mult v s) = magnitude v * |s| := by
  unfold magnitude mult
  have h : v.x * s * (v.x * s) + v.y * s * (v.y * s) = (v.x * v.x + v.y * v.y) * (s * s) := by
    ring
  rw [h, Real.sqrt_mul (add_nonneg (mul_self_nonneg _) (mul_self_nonneg _)),
    Real.sqrt_mul_self_eq_abs]

theorem magnitude_normalise (v : Vector) (h : magnitude v ≠ 0) : magnitude (normalise v) = 1 := by
  have hsq := magnitude_sq v
  unfold normalise
  rw [if_neg h]
  unfold magnitude at *
  have h2 : v.x / Real.sqrt (v.x * v.x + v.y * v.y) * (v.x / Real.sqrt (v.x * v.x + v.y * v.y))
      + v.y / Real.sqrt (v.x * v.x + v.y * v.y) * (v.y / Real.sqrt (v.x * v.x + v.y * v.y))
      = 1 := by
    field_simp
    linarith
  rw [h2, Real.sqrt_one]

theorem normalise_zero (v : Vector) (h : magnitude v = 0) : normalise v = ⟨0, 0⟩ := by
  unfold normalise
  rw [if_pos h]

theorem dot_normalise (v : Vector) (s : ℝ) :
    dot (mult (normalise v) s) v = s * magnitude v := by
  by_cases h : magnitude v = 0
  · rw [normalise_zero v h, h]
    simp [dot, mult]
  · have hsq := magnitude_sq v
    unfold normalise
    rw [if_neg h]
    simp only [dot, mult]
    field_simp
    rw [mul_assoc s, hsq]
    ring

end Matter.Vector

/-- The magnitude of the gravitational force between bodies at distinct
positions. -/
theorem gravitationalForce_magnitude (A B : Body)
    (hpos : Matter.Vector.magnitude (Matter.Vector.sub B.position A.position) ≠ 0) :
    Matter.Vector.magnitude (calculate4DGravitationalForce A B)
      = |G * A.mass * B.mass|
        / ((Matter.Vector.magnitude (Matter.Vector.sub B.position A.position) + 1e-10)
          * (Matter.Vector.magnitude (Matter.Vector.sub B.position A.position) + 1e-10)) := by
  simp only [calculate4DGravitationalForce]
  rw [Matter.Vector.magnitude_mult, Matter.Vector.magnitude_normalise _ hpos, one_mul, abs_div,
    abs_mul_self]

/-- The gravitational force between bodies at the same position is the zero
vector. -/
theorem gravitationalForce_coincident (A B : Body)
    (hpos : Matter.Vector.magnitude (Matter.Vector.sub B.position A.position) = 0) :
    calculate4DGravitationalForce A B = ⟨0, 0⟩ := by
  simp only [calculate4DGravitationalForce]
  rw [Matter.Vector.normalise_zero _ hpos]
  simp [Matter.Vector.mult]

end Game4D

namespace Game4D

/-! ## Lemmas on the controller -/

theorem updateStrategy_performanceHistory (c : MetacognitiveController) (p : ℚ) :
    (updateStrategy c p).performanceHistory
      = if (c.performanceHistory ++ [p]).length > 10 then (c.performanceHistory ++ [p]).tail
        else c.performanceHistory ++ [p] := by
  unfold updateStrategy
  simp only []
  split_ifs <;> rfl

theorem updateStrategy_learningRate (c : MetacognitiveController) (p : ℚ) :
    (updateStrategy c p).learningRate = max 0.001 (c.learningRate * 0.99) := by
  unfold updateStrategy
  simp only []
  split_ifs <;> rfl

theorem updateStrategy_low (c : MetacognitiveController) (p : ℚ)
    (h : (averagePerformance (updateStrategy c p).performanceHistory).lt (roundToDouble 0.3)
      = true) :
    (updateStrategy c p).strategy = "exploratory"
      ∧ (updateStrategy c p).explorationRate = 0.3 := by
  rw [updateStrategy_performanceHistory] at h
  unfold updateStrategy
  simp only []
  rw [if_pos h]
  exact ⟨rfl, rfl⟩

theorem updateStrategy_mid (c : MetacognitiveController) (p : ℚ)
    (h1 : (averagePerformance (updateStrategy c p).performanceHistory).lt (roundToDouble 0.3)
      = false)
    (h2 : (averagePerformance (updateStrategy c p).performanceHistory).lt (roundToDouble 0.7)
      = true) :
    (updateStrategy c p).strategy = "balanced"
      ∧ (updateStrategy c p).explorationRate = 0.1 := by
  rw [updateStrategy_performanceHistory] at h1 h2
  unfold updateStrategy
  simp only []
  rw [if_neg (by rw [h1]; exact Bool.false_ne_true), if_pos h2]
  exact ⟨rfl, rfl⟩

theorem updateStrategy_high (c : MetacognitiveController) (p : ℚ)
    (h1 : (averagePerformance (updateStrategy c p).performanceHistory).lt (roundToDouble 0.3)
      = false)
    (h2 : (averagePerformance (updateStrategy c p).performanceHistory).lt (roundToDouble 0.7)
      = false) :
    (updateStrategy c p).strategy = "exploitative"
      ∧ (updateStrategy c p).explorationRate = 0.05 := by
  rw [updateStrategy_performanceHistory] at h1 h2
  unfold updateStrategy
  simp only []
  rw [if_neg (by rw [h1]; exact Bool.false_ne_true),
    if_neg (by rw [h2]; exact Bool.false_ne_true)]
  exact ⟨rfl, rfl⟩

theorem roundToDouble_low : roundToDouble 0.3 = .finite (5404319552844595 / 2 ^ 54) := by
  decide!

theorem roundToDouble_high : roundToDouble 0.7 = .finite (3152519739159347 / 2 ^ 52) := by
  decide!

theorem JsNumber.lt_eq_false_of_le (t m : JsNumber) (h : t.le m = true) : m.lt t = false := by
  cases t <;> cases m <;> simp_all [JsNumber.le, JsNumber.lt]

theorem JsNumber.lt_low_eq_false_of_high_le (m : JsNumber)
    (h : (roundToDouble 0.7).le m = true) : m.lt (roundToDouble 0.3) = false := by
  rw [roundToDouble_high] at h
  rw [roundToDouble_low]
  cases m with
  | finite v =>
    simp only [JsNumber.le, decide_eq_true_eq] at h
    simp only [JsNumber.lt, decide_eq_false_iff_not, not_lt]
    refine le_trans ?_ h
    norm_num
  | posInf => rfl
  | negInf => simp [JsNumber.le] at h
  | nan => rfl

theorem updateStrategyAll_snoc (c : MetacognitiveController) (samples : List ℚ) (p : ℚ) :
    updateStrategyAll c (samples ++ [p]) = updateStrategy (updateStrategyAll c samples) p := by
  simp [updateStrategyAll, List.foldl_append]

theorem updateStrategy_length (c : MetacognitiveController) (p : ℚ)
    (hlen : c.performanceHistory.length ≤ 10) :
    (updateStrategy c p).performanceHistory.length = min (c.performanceHistory.length + 1) 10 := by
  rw [updateStrategy_performanceHistory]
  split_ifs with h
  · simp only [List.length_tail, List.length_append, List.length_singleton] at h ⊢
    omega
  · simp only [List.length_append, List.length_singleton] at h ⊢
    omega

theorem updateStrategyAll_length (samples : List ℚ) :
    (updateStrategyAll metacognitiveController samples).performanceHistory.length
      = min samples.length 10 := by
  induction samples using List.reverseRecOn with
  | nil => rfl
  | append_singleton l a ih =>
    rw [updateStrategyAll_snoc, updateStrategy_length _ _ (by rw [ih]; exact min_le_right _ _), ih]
    simp only [List.length_append, List.length_singleton]
    omega

theorem learningRate_step (x : ℚ) :
    max (0.001 : ℚ) (max 0.001 x * 0.99) = max 0.001 (x * 0.99) := by
  rcases le_total x 0.001 with h | h
  · rw [max_eq_left h, max_eq_left (by norm_num), max_eq_left]
    linarith
  · rw [max_eq_right h]

end Game4D

namespace Game4D

/-! ## The force model: claims C1, C7, C9, C10 -/

theorem magnitude_sub_ne_zero (p q : Matter.Vector) (h : p ≠ q) :
    Matter.Vector.magnitude (Matter.Vector.sub q p) ≠ 0 := by
  intro h0
  apply h
  unfold Matter.Vector.magnitude Matter.Vector.sub at h0
  rw [Real.sqrt_eq_zero (add_nonneg (mul_self_nonneg _) (mul_self_nonneg _))] at h0
  simp only at h0
  have hx : (q.x - p.x) * (q.x - p.x) = 0 := by
    nlinarith [mul_self_nonneg (q.x - p.x), mul_self_nonneg (q.y - p.y)]
  have hy : (q.y - p.y) * (q.y - p.y) = 0 := by
    nlinarith [mul_self_nonneg (q.x - p.x), mul_self_nonneg (q.y - p.y)]
  have hx0 := mul_self_eq_zero.mp hx
  have hy0 := mul_self_eq_zero.mp hy
  ext <;> linarith

theorem magnitude_sub_eq (p q : Matter.Vector) :
    Matter.Vector.magnitude (Matter.Vector.sub q p) = euclideanDistance p q := by
  unfold Matter.Vector.magnitude Matter.Vector.sub euclideanDistance
  congr 1
  ring

theorem dot_normalise_self (v : Matter.Vector) (s : ℝ) (h : Matter.Vector.magnitude v ≠ 0) :
    Matter.Vector.dot (Matter.Vector.mult (Matter.Vector.normalise v) s)
      (Matter.Vector.normalise v) = s := by
  have hsq := Matter.Vector.magnitude_sq v
  unfold Matter.Vector.normalise
  rw [if_neg h]
  simp only [Matter.Vector.dot, Matter.Vector.mult]
  field_simp
  rw [hsq]
  ring

/-- C1 (Newton's third law). For every two bodies `A`, `B` (any positions, in
particular distinct ones, any masses, any charges) the gravitational force
`calculate4DGravitationalForce A B` is the exact negation of
`calculate4DGravitationalForce B A`, and for bodies that carry charges
`calculateChargeForce A B` and `calculateChargeForce B A` both return, the first
being the exact negation of the second; each pair has equal magnitudes. -/
theorem newton_third_law (A B : Body) (pA pB : Properties)
    (hA : A.properties = some pA) (hB : B.properties = some pB) :
    calculate4DGravitationalForce A B
      = Matter.Vector.neg (calculate4DGravitationalForce B A)
    ∧ Matter.Vector.magnitude (calculate4DGravitationalForce A B)
        = Matter.Vector.magnitude (calculate4DGravitationalForce B A)
    ∧ ∃ fAB fBA, calculateChargeForce A B = .ok fAB ∧ calculateChargeForce B A = .ok fBA
        ∧ fAB = Matter.Vector.neg fBA
        ∧ Matter.Vector.magnitude fAB = Matter.Vector.magnitude fBA := by
  have hg : calculate4DGravitationalForce A B
      = Matter.Vector.neg (calculate4DGravitationalForce B A) := by
    simp only [calculate4DGravitationalForce]
    rw [Matter.Vector.sub_swap B.position A.position, Matter.Vector.normalise_neg,
      Matter.Vector.magnitude_neg, Matter.Vector.mult_neg, mul_right_comm G A.mass B.mass]
  have hc : ∀ fAB fBA, calculateChargeForce A B = .ok fAB → calculateChargeForce B A = .ok fBA
      → fAB = Matter.Vector.neg fBA := by
    intro fAB fBA h1 h2
    simp only [calculateChargeForce, hA, hB, Except.ok.injEq] at h1 h2
    rw [← h1, ← h2, Matter.Vector.sub_swap B.position A.position, Matter.Vector.normalise_neg,
      Matter.Vector.magnitude_neg, Matter.Vector.mult_neg, mul_right_comm k pA.charge pB.charge]
  have h1 : ∃ fAB, calculateChargeForce A B = .ok fAB := by
    simp [calculateChargeForce, hA, hB]
  have h2 : ∃ fBA, calculateChargeForce B A = .ok fBA := by
    simp [calculateChargeForce, hA, hB]
  obtain ⟨fAB, hAB⟩ := h1
  obtain ⟨fBA, hBA⟩ := h2
  refine ⟨hg, ?_, fAB, fBA, hAB, hBA, hc _ _ hAB hBA, ?_⟩
  · rw [hg, Matter.Vector.magnitude_neg]
  · rw [hc _ _ hAB hBA, Matter.Vector.magnitude_neg]

/-- Instance of C1 for two unit-mass, unit-charge bodies at `(0,0)` and `(3,4)`. -/
theorem newton_third_law_witness :
    calculate4DGravitationalForce (sampleBody 0 0 0 1 1) (sampleBody 1 3 4 1 1)
      = Matter.Vector.neg
          (calculate4DGravitationalForce (sampleBody 1 3 4 1 1) (sampleBody 0 0 0 1 1))
    ∧ Matter.Vector.magnitude
          (calculate4DGravitationalForce (sampleBody 0 0 0 1 1) (sampleBody 1 3 4 1 1))
        = Matter.Vector.magnitude
            (calculate4DGravitationalForce (sampleBody 1 3 4 1 1) (sampleBody 0 0 0 1 1))
    ∧ ∃ fAB fBA, calculateChargeForce (sampleBody 0 0 0 1 1) (sampleBody 1 3 4 1 1) = .ok fAB
        ∧ calculateChargeForce (sampleBody 1 3 4 1 1) (sampleBody 0 0 0 1 1) = .ok fBA
        ∧ fAB = Matter.Vector.neg fBA
        ∧ Matter.Vector.magnitude fAB = Matter.Vector.magnitude fBA :=
  newton_third_law (sampleBody 0 0 0 1 1) (sampleBody 1 3 4 1 1) ⟨1, 1, 0, none⟩ ⟨1, 1, 0, none⟩
    rfl rfl

/-- C7, as stated, fails at separation 0: with unit masses, the force between two
bodies at the same position (separation `d1 = 0`) has magnitude 0, which is not at
least the magnitude of the force at separation `d2 = 1`. -/
theorem gravity_monotone_counterexample :
    Matter.Vector.magnitude (Matter.Vector.sub (sampleBody 1 0 0 1 1).position
        (sampleBody 0 0 0 1 1).position) = 0
    ∧ Matter.Vector.magnitude (Matter.Vector.sub (sampleBody 1 1 0 1 1).position
        (sampleBody 0 0 0 1 1).position) = 1
    ∧ ¬ (Matter.Vector.magnitude
            (calculate4DGravitationalForce (sampleBody 0 0 0 1 1) (sampleBody 1 1 0 1 1))
          ≤ Matter.Vector.magnitude
            (calculate4DGravitationalForce (sampleBody 0 0 0 1 1) (sampleBody 1 0 0 1 1))) := by
  have h0 : Matter.Vector.magnitude (Matter.Vector.sub (sampleBody 1 0 0 1 1).position
      (sampleBody 0 0 0 1 1).position) = 0 := by
    simp [Matter.Vector.magnitude, Matter.Vector.sub, sampleBody]
  have h1 : Matter.Vector.magnitude (Matter.Vector.sub (sampleBody 1 1 0 1 1).position
      (sampleBody 0 0 0 1 1).position) = 1 := by
    simp [Matter.Vector.magnitude, Matter.Vector.sub, sampleBody]
  refine ⟨h0, h1, ?_⟩
  rw [gravitationalForce_coincident _ _ h0,
    gravitationalForce_magnitude _ _ (by rw [h1]; exact one_ne_zero), h1]
  norm_num [Matter.Vector.magnitude, sampleBody, G]

/-- C7, amended. For fixed masses, the magnitude of the vector returned by
`calculate4DGravitationalForce` decreases as the distance between the two bodies
increases, over separations that are not zero: for all separations `0 < d1 < d2` the
magnitude at `d1` is at least the magnitude at `d2`. -/
theorem gravity_magnitude_decreasing (A B A' B' : Body)
    (hA : A'.mass = A.mass) (hB : B'.mass = B.mass)
    (hd1 : 0 < Matter.Vector.magnitude (Matter.Vector.sub B.position A.position))
    (hd : Matter.Vector.magnitude (Matter.Vector.sub B.position A.position)
        < Matter.Vector.magnitude (Matter.Vector.sub B'.position A'.position)) :
    Matter.Vector.magnitude (calculate4DGravitationalForce A' B')
      ≤ Matter.Vector.magnitude (calculate4DGravitationalForce A B) := by
  rw [gravitationalForce_magnitude A B (ne_of_gt hd1),
    gravitationalForce_magnitude A' B' (ne_of_gt (lt_trans hd1 hd)), hA, hB]
  have hε : (0 : ℝ) < 1e-10 := by norm_num
  apply div_le_div_of_nonneg_left (abs_nonneg _)
  · exact mul_pos (by linarith) (by linarith)
  · apply mul_le_mul <;> linarith

/-- Instance of the amended C7: unit masses at separations 1 and 2. -/
theorem gravity_magnitude_decreasing_witness :
    Matter.Vector.magnitude
        (calculate4DGravitationalForce (sampleBody 0 0 0 1 1) (sampleBody 1 2 0 1 1))
      ≤ Matter.Vector.magnitude
        (calculate4DGravitationalForce (sampleBody 0 0 0 1 1) (sampleBody 1 1 0 1 1)) :=
  gravity_magnitude_decreasing (sampleBody 0 0 0 1 1) (sampleBody 1 1 0 1 1)
    (sampleBody 0 0 0 1 1) (sampleBody 1 2 0 1 1) rfl rfl
    (by simp [Matter.Vector.magnitude, Matter.Vector.sub, sampleBody])
    (by
      have h2 : Real.sqrt (2 * 2) = 2 := Real.sqrt_mul_self (by norm_num)
      simp [Matter.Vector.magnitude, Matter.Vector.sub, sampleBody, h2])

/-- The charge force on a body that carries charges, and its component along the
vector from `A` to `B`. -/
theorem chargeForce_dot (A B : Body) (pA pB : Properties)
    (hA : A.properties = some pA) (hB : B.properties = some pB) :
    ∃ f, calculateChargeForce A B = .ok f
      ∧ Matter.Vector.dot f (Matter.Vector.sub B.position A.position)
        = (k * pA.charge * pB.charge)
            / ((Matter.Vector.magnitude (Matter.Vector.sub B.position A.position) + 1e-10)
              * (Matter.Vector.magnitude (Matter.Vector.sub B.position A.position) + 1e-10))
          * Matter.Vector.magnitude (Matter.Vector.sub B.position A.position) := by
  have hf : calculateChargeForce A B
      = .ok (Matter.Vector.mult
          (Matter.Vector.normalise (Matter.Vector.sub B.position A.position))
          ((k * pA.charge * pB.charge)
            / ((Matter.Vector.magnitude (Matter.Vector.sub B.position A.position) + 1e-10)
              * (Matter.Vector.magnitude (Matter.Vector.sub B.position A.position)
                + 1e-10)))) := by
    simp only [calculateChargeForce, hA, hB]
  exact ⟨_, hf, Matter.Vector.dot_normalise _ _⟩

/-- C9 at a concrete input. With `A` at `(0,0)` and `B` at `(1,0)`: for like charges
(`qA = qB = 1`) the force `calculateChargeForce A B` has a positive dot product with
the vector from `A` to `B`, so it pulls `A` toward `B`; for opposite charges
(`qA = 1`, `qB = -1`) the dot product is negative, so it pushes `A` away from `B`. -/
theorem chargeForce_like_charges_attract :
    (∃ f, calculateChargeForce (sampleBody 0 0 0 1 1) (sampleBody 1 1 0 1 1) = .ok f
      ∧ 0 < Matter.Vector.dot f (Matter.Vector.sub (sampleBody 1 1 0 1 1).position
              (sampleBody 0 0 0 1 1).position))
    ∧ (∃ f, calculateChargeForce (sampleBody 0 0 0 1 1) (sampleBody 1 1 0 1 (-1)) = .ok f
      ∧ Matter.Vector.dot f (Matter.Vector.sub (sampleBody 1 1 0 1 (-1)).position
              (sampleBody 0 0 0 1 1).position) < 0) := by
  have h1 : Matter.Vector.magnitude (Matter.Vector.sub (sampleBody 1 1 0 1 1).position
      (sampleBody 0 0 0 1 1).position) = 1 := by
    simp [Matter.Vector.magnitude, Matter.Vector.sub, sampleBody]
  have h2 : Matter.Vector.magnitude (Matter.Vector.sub (sampleBody 1 1 0 1 (-1)).position
      (sampleBody 0 0 0 1 1).position) = 1 := by
    simp [Matter.Vector.magnitude, Matter.Vector.sub, sampleBody]
  constructor
  · obtain ⟨f, hf, hdot⟩ := chargeForce_dot (sampleBody 0 0 0 1 1) (sampleBody 1 1 0 1 1)
      ⟨1, 1, 0, none⟩ ⟨1, 1, 0, none⟩ rfl rfl
    refine ⟨f, hf, ?_⟩
    rw [hdot, h1]
    norm_num [k]
  · obtain ⟨f, hf, hdot⟩ := chargeForce_dot (sampleBody 0 0 0 1 1) (sampleBody 1 1 0 1 (-1))
      ⟨1, 1, 0, none⟩ ⟨1, -1, 0, none⟩ rfl rfl
    refine ⟨f, hf, ?_⟩
    rw [hdot, h2]
    norm_num [k]

/-- C10, as stated, fails: for unit masses and unit charges at `(0,0)` and `(1,0)`
(Euclidean distance 1) the forces returned are not the unit vector from `A` to `B`
scaled by `G*mA*mB/d^2`, respectively `k*qA*qB/d^2`, with `d = max(distance, 1e-10)`. -/
theorem distance_max_counterexample :
    euclideanDistance (sampleBody 0 0 0 1 1).position (sampleBody 1 1 0 1 1).position = 1
    ∧ calculate4DGravitationalForce (sampleBody 0 0 0 1 1) (sampleBody 1 1 0 1 1)
      ≠ Matter.Vector.mult
          (Matter.Vector.normalise (Matter.Vector.sub (sampleBody 1 1 0 1 1).position
            (sampleBody 0 0 0 1 1).position))
          (G * 1 * 1 / (max (euclideanDistance (sampleBody 0 0 0 1 1).position
            (sampleBody 1 1 0 1 1).position) 1e-10) ^ 2)
    ∧ calculateChargeForce (sampleBody 0 0 0 1 1) (sampleBody 1 1 0 1 1)
      ≠ .ok (Matter.Vector.mult
          (Matter.Vector.normalise (Matter.Vector.sub (sampleBody 1 1 0 1 1).position
            (sampleBody 0 0 0 1 1).position))
          (k * 1 * 1 / (max (euclideanDistance (sampleBody 0 0 0 1 1).position
            (sampleBody 1 1 0 1 1).position) 1e-10) ^ 2)) := by
  have h1 : Matter.Vector.magnitude (Matter.Vector.sub (sampleBody 1 1 0 1 1).position
      (sampleBody 0 0 0 1 1).position) = 1 := by
    simp [Matter.Vector.magnitude, Matter.Vector.sub, sampleBody]
  have he : euclideanDistance (sampleBody 0 0 0 1 1).position (sampleBody 1 1 0 1 1).position
      = 1 := by
    rw [← magnitude_sub_eq, h1]
  have hn : Matter.Vector.normalise (Matter.Vector.sub (sampleBody 1 1 0 1 1).position
      (sampleBody 0 0 0 1 1).position) = ⟨1, 0⟩ := by
    unfold Matter.Vector.normalise
    rw [h1]
    simp [Matter.Vector.sub, sampleBody]
  refine ⟨he, ?_, ?_⟩
  · intro h
    simp only [calculate4DGravitationalForce] at h
    rw [he, hn, h1] at h
    have hx := congrArg Matter.Vector.x h
    norm_num [Matter.Vector.mult, sampleBody, G] at hx
  · intro h
    simp only [calculateChargeForce, sampleBody, Except.ok.injEq] at h
    simp only [sampleBody] at he hn h1
    rw [he, hn, h1] at h
    have hx := congrArg Matter.Vector.x h
    norm_num [Matter.Vector.mult, k] at hx

/-- C10, amended. For every pair of bodies the distance `d` used as the denominator
in `calculate4DGravitationalForce` and in `calculateChargeForce` is the Euclidean
distance between the positions plus `1e-10`: the force returned is the unit vector
from `A` to `B` (the zero vector when the positions coincide) scaled by
`G*mA*mB/d^2`, respectively `k*qA*qB/d^2`, with that `d`, and for distinct positions
its component along that unit vector is exactly that quantity. -/
theorem distance_offset (A B : Body) (pA pB : Properties)
    (hA : A.properties = some pA) (hB : B.properties = some pB) :
    calculate4DGravitationalForce A B
      = Matter.Vector.mult (Matter.Vector.normalise (Matter.Vector.sub B.position A.position))
          (G * A.mass * B.mass / (euclideanDistance A.position B.position + 1e-10) ^ 2)
    ∧ calculateChargeForce A B
      = .ok (Matter.Vector.mult
          (Matter.Vector.normalise (Matter.Vector.sub B.position A.position))
          (k * pA.charge * pB.charge / (euclideanDistance A.position B.position + 1e-10) ^ 2))
    ∧ (A.position ≠ B.position →
        Matter.Vector.dot (calculate4DGravitationalForce A B)
            (Matter.Vector.normalise (Matter.Vector.sub B.position A.position))
          = G * A.mass * B.mass / (euclideanDistance A.position B.position + 1e-10) ^ 2
        ∧ ∃ f, calculateChargeForce A B = .ok f
          ∧ Matter.Vector.dot f
              (Matter.Vector.normalise (Matter.Vector.sub B.position A.position))
            = k * pA.charge * pB.charge
                / (euclideanDistance A.position B.position + 1e-10) ^ 2) := by
  have hg : calculate4DGravitationalForce A B
      = Matter.Vector.mult (Matter.Vector.normalise (Matter.Vector.sub B.position A.position))
          (G * A.mass * B.mass / (euclideanDistance A.position B.position + 1e-10) ^ 2) := by
    simp only [calculate4DGravitationalForce]
    rw [magnitude_sub_eq, pow_two]
  have hc : calculateChargeForce A B
      = .ok (Matter.Vector.mult
          (Matter.Vector.normalise (Matter.Vector.sub B.position A.position))
          (k * pA.charge * pB.charge
            / (euclideanDistance A.position B.position + 1e-10) ^ 2)) := by
    simp only [calculateChargeForce, hA, hB]
    rw [magnitude_sub_eq, pow_two]
  refine ⟨hg, hc, fun hne => ⟨?_, _, hc, ?_⟩⟩
  · rw [hg]
    exact dot_normalise_self _ _ (magnitude_sub_ne_zero _ _ hne)
  · exact dot_normalise_self _ _ (magnitude_sub_ne_zero _ _ hne)

/-- Instance of the amended C10 for masses 2 and 3, charges 1 and -1, at `(0,0)` and
`(3,4)`. -/
theorem distance_offset_witness :
    Matter.Vector.dot
        (calculate4DGravitationalForce (sampleBody 0 0 0 2 1) (sampleBody 1 3 4 3 (-1)))
        (Matter.Vector.normalise (Matter.Vector.sub (sampleBody 1 3 4 3 (-1)).position
          (sampleBody 0 0 0 2 1).position))
      = G * 2 * 3 / (euclideanDistance (sampleBody 0 0 0 2 1).position
          (sampleBody 1 3 4 3 (-1)).position + 1e-10) ^ 2
    ∧ ∃ f, calculateChargeForce (sampleBody 0 0 0 2 1) (sampleBody 1 3 4 3 (-1)) = .ok f
      ∧ Matter.Vector.dot f
          (Matter.Vector.normalise (Matter.Vector.sub (sampleBody 1 3 4 3 (-1)).position
            (sampleBody 0 0 0 2 1).position))
        = k * 1 * (-1) / (euclideanDistance (sampleBody 0 0 0 2 1).position
            (sampleBody 1 3 4 3 (-1)).position + 1e-10) ^ 2 :=
  (distance_offset (sampleBody 0 0 0 2 1) (sampleBody 1 3 4 3 (-1)) ⟨2, 1, 0, none⟩
    ⟨3, -1, 0, none⟩ rfl rfl).2.2 (by
      intro h
      have hx := congrArg Matter.Vector.x h
      norm_num [sampleBody] at hx)

end Game4D

namespace Game4D

/-! ## The strategy controller: claims C2, C3, C4 -/

/-- Ten samples 0.3 add up, in double precision, to 2.9999999999999996, and the
average 0.29999999999999993 is below the threshold 0.3: the strategy is
'exploratory'. -/
theorem updateStrategy_ten_low_samples :
    (averagePerformance (List.replicate 10 0.3)).lt (roundToDouble 0.3) = true
    ∧ (updateStrategy ⟨0.01, 0.1, "random", List.replicate 9 0.3⟩ 0.3).strategy
        = "exploratory"
    ∧ (updateStrategy ⟨0.01, 0.1, "random", List.replicate 9 (double 0.3)⟩
        (double 0.3)).strategy = "exploratory" := by
  have h : (averagePerformance (List.replicate 10 0.3)).lt (roundToDouble 0.3) = true := by
    decide!
  have h' : (averagePerformance (List.replicate 10 (double 0.3))).lt (roundToDouble 0.3)
      = true := by
    decide!
  exact ⟨h, (updateStrategy_low _ _ (by rw [updateStrategy_performanceHistory]; exact h)).1,
    (updateStrategy_low _ _ (by rw [updateStrategy_performanceHistory]; exact h')).1⟩

/-- The samples 0.6, 0.7, 0.8 average, in double precision, to 0.6999999999999998,
below the threshold 0.7: the strategy is 'balanced'. -/
theorem updateStrategy_high_samples :
    (averagePerformance [0.6, 0.7, 0.8]).lt (roundToDouble 0.7) = true
    ∧ (updateStrategy ⟨0.01, 0.1, "random", [0.6, 0.7]⟩ 0.8).strategy = "balanced" := by
  have h1 : (averagePerformance [0.6, 0.7, 0.8]).lt (roundToDouble 0.3) = false := by
    decide!
  have h2 : (averagePerformance [0.6, 0.7, 0.8]).lt (roundToDouble 0.7) = true := by
    decide!
  exact ⟨h2, (updateStrategy_mid _ _ (by rw [updateStrategy_performanceHistory]; exact h1)
    (by rw [updateStrategy_performanceHistory]; exact h2)).1⟩

/-- C2, as stated, fails. The history `[0.7, 0.15]` receives the sample `0.05` (all
three the doubles these literals denote): the arithmetic mean of the updated history
is below 0.3, and below the double that the literal `0.3` denotes, yet the strategy is
'balanced' with exploration rate 0.1, not 'exploratory' with 0.3, because the sum and
the quotient are rounded to exactly the double `0.3`. -/
theorem updateStrategy_mean_counterexample :
    (updateStrategy ⟨0.01, 0.1, "random", [double 0.7, double 0.15]⟩
        (double 0.05)).performanceHistory = [double 0.7, double 0.15, double 0.05]
    ∧ [double 0.7, double 0.15, double 0.05].sum / 3 < (0.3 : ℚ)
    ∧ [double 0.7, double 0.15, double 0.05].sum / 3 < double 0.3
    ∧ averagePerformance [double 0.7, double 0.15, double 0.05] = roundToDouble 0.3
    ∧ (updateStrategy ⟨0.01, 0.1, "random", [double 0.7, double 0.15]⟩
        (double 0.05)).strategy = "balanced"
    ∧ (updateStrategy ⟨0.01, 0.1, "random", [double 0.7, double 0.15]⟩
        (double 0.05)).explorationRate = 0.1
    ∧ ¬ ((updateStrategy ⟨0.01, 0.1, "random", [double 0.7, double 0.15]⟩
        (double 0.05)).strategy = "exploratory") := by
  have hH : (updateStrategy ⟨0.01, 0.1, "random", [double 0.7, double 0.15]⟩
      (double 0.05)).performanceHistory = [double 0.7, double 0.15, double 0.05] := by
    rw [updateStrategy_performanceHistory]
    rfl
  have havg : averagePerformance [double 0.7, double 0.15, double 0.05]
      = roundToDouble 0.3 := by
    decide!
  have h1 : (averagePerformance [double 0.7, double 0.15, double 0.05]).lt (roundToDouble 0.3)
      = false := by
    decide!
  have h2 : (averagePerformance [double 0.7, double 0.15, double 0.05]).lt (roundToDouble 0.7)
      = true := by
    decide!
  have hmid := updateStrategy_mid ⟨0.01, 0.1, "random", [double 0.7, double 0.15]⟩
    (double 0.05) (by rw [hH]; exact h1) (by rw [hH]; exact h2)
  refine ⟨hH, by decide!, by decide!, havg, hmid.1, hmid.2, ?_⟩
  rw [hmid.1]
  decide

/-- C2, amended. For every prior controller state and every sample `p`, with `m` the
mean of the history after `updateStrategy p` as the code computes it in double
precision (the samples added from the left starting at 0, then divided by their
number, each result rounded to the nearest double): `m < 0.3` gives strategy
'exploratory' and exploration rate 0.3; `0.3 ≤ m < 0.7` gives 'balanced' and 0.1;
`m ≥ 0.7` gives 'exploitative' and 0.05. In particular an updated
history of ten 0.1s, of ten 0.5s, of ten 0.9s gives exploratory/0.3, balanced/0.1,
exploitative/0.05. -/
theorem updateStrategy_thresholds (c : MetacognitiveController) (p : ℚ) :
    ((averagePerformance (updateStrategy c p).performanceHistory).lt (roundToDouble 0.3) = true
      → (updateStrategy c p).strategy = "exploratory"
        ∧ (updateStrategy c p).explorationRate = 0.3)
    ∧ ((roundToDouble 0.3).le (averagePerformance (updateStrategy c p).performanceHistory)
          = true
      → (averagePerformance (updateStrategy c p).performanceHistory).lt (roundToDouble 0.7)
          = true
      → (updateStrategy c p).strategy = "balanced"
        ∧ (updateStrategy c p).explorationRate = 0.1)
    ∧ ((roundToDouble 0.7).le (averagePerformance (updateStrategy c p).performanceHistory)
          = true
      → (updateStrategy c p).strategy = "exploitative"
        ∧ (updateStrategy c p).explorationRate = 0.05)
    ∧ ((updateStrategy c p).performanceHistory = List.replicate 10 (double 0.1)
      → (updateStrategy c p).strategy = "exploratory"
        ∧ (updateStrategy c p).explorationRate = 0.3)
    ∧ ((updateStrategy c p).performanceHistory = List.replicate 10 (double 0.5)
      → (updateStrategy c p).strategy = "balanced"
        ∧ (updateStrategy c p).explorationRate = 0.1)
    ∧ ((updateStrategy c p).performanceHistory = List.replicate 10 (double 0.9)
      → (updateStrategy c p).strategy = "exploitative"
        ∧ (updateStrategy c p).explorationRate = 0.05) := by
  have hlow := updateStrategy_low c p
  have hmid : (roundToDouble 0.3).le (averagePerformance (updateStrategy c p).performanceHistory)
        = true
      → (averagePerformance (updateStrategy c p).performanceHistory).lt (roundToDouble 0.7)
        = true
      → (updateStrategy c p).strategy = "balanced"
        ∧ (updateStrategy c p).explorationRate = 0.1 :=
    fun h1 h2 => updateStrategy_mid c p (JsNumber.lt_eq_false_of_le _ _ h1) h2
  have hhigh : (roundToDouble 0.7).le (averagePerformance (updateStrategy c p).performanceHistory)
        = true
      → (updateStrategy c p).strategy = "exploitative"
        ∧ (updateStrategy c p).explorationRate = 0.05 :=
    fun h => updateStrategy_high c p (JsNumber.lt_low_eq_false_of_high_le _ h)
      (JsNumber.lt_eq_false_of_le _ _ h)
  refine ⟨hlow, hmid, hhigh, fun h => hlow ?_, fun h => hmid ?_ ?_, fun h => hhigh ?_⟩
  all_goals
    rw [h]
    decide!

/-- Instances of the amended C2: pushing 0.1 onto ten 0.1s, 0.5 onto nine 0.5s and
0.9 onto ten 0.9s. -/
theorem updateStrategy_thresholds_witness :
    ((updateStrategy ⟨0.01, 0.1, "random", List.replicate 10 (double 0.1)⟩
          (double 0.1)).strategy = "exploratory"
      ∧ (updateStrategy ⟨0.01, 0.1, "random", List.replicate 10 (double 0.1)⟩
          (double 0.1)).explorationRate = 0.3)
    ∧ ((updateStrategy ⟨0.01, 0.1, "random", List.replicate 9 (double 0.5)⟩
          (double 0.5)).strategy = "balanced"
      ∧ (updateStrategy ⟨0.01, 0.1, "random", List.replicate 9 (double 0.5)⟩
          (double 0.5)).explorationRate = 0.1)
    ∧ ((updateStrategy ⟨0.01, 0.1, "random", List.replicate 10 (double 0.9)⟩
          (double 0.9)).strategy = "exploitative"
      ∧ (updateStrategy ⟨0.01, 0.1, "random", List.replicate 10 (double 0.9)⟩
          (double 0.9)).explorationRate = 0.05) := by
  refine ⟨(updateStrategy_thresholds _ _).2.2.2.1 ?_,
    (updateStrategy_thresholds _ _).2.2.2.2.1 ?_,
    (updateStrategy_thresholds _ _).2.2.2.2.2 ?_⟩
  all_goals
    rw [updateStrategy_performanceHistory]
    rfl

/-- C3. `performanceHistory` is a FIFO bounded at 10: for every history of length at
most 10 and every sample `p`, after `updateStrategy p` the history is the old one
followed by `p` when it had fewer than 10 entries, and the old one without its first
entry followed by `p` when it had exactly 10; starting from the empty history the
length never exceeds 10 after any number of calls and is exactly 10 after the 11th
and every later call. -/
theorem performanceHistory_fifo (c : MetacognitiveController) (p : ℚ) (samples : List ℚ)
    (hlen : c.performanceHistory.length ≤ 10) :
    (c.performanceHistory.length < 10
      → (updateStrategy c p).performanceHistory = c.performanceHistory ++ [p])
    ∧ (c.performanceHistory.length = 10
      → (updateStrategy c p).performanceHistory = c.performanceHistory.tail ++ [p])
    ∧ (updateStrategy c p).performanceHistory.length ≤ 10
    ∧ (updateStrategyAll metacognitiveController samples).performanceHistory.length ≤ 10
    ∧ (11 ≤ samples.length
      → (updateStrategyAll metacognitiveController samples).performanceHistory.length = 10) := by
  refine ⟨fun h => ?_, fun h => ?_, ?_, ?_, fun h => ?_⟩
  · rw [updateStrategy_performanceHistory, if_neg]
    simp only [List.length_append, List.length_singleton]
    omega
  · rw [updateStrategy_performanceHistory, if_pos]
    · cases hc : c.performanceHistory with
      | nil => rw [hc] at h; simp at h
      | cons a l => rfl
    · simp only [List.length_append, List.length_singleton]
      omega
  · rw [updateStrategy_length c p hlen]
    exact min_le_right _ _
  · rw [updateStrategyAll_length]
    exact min_le_right _ _
  · rw [updateStrategyAll_length]
    exact min_eq_right (by omega)

/-- Instance of C3: a history of the ten samples 1, …, 10
receives an 11th sample, and the controller runs 11 times from the empty history. -/
theorem performanceHistory_fifo_witness :
    (updateStrategy ⟨0.01, 0.1, "random", [1, 2, 3, 4, 5, 6, 7, 8, 9, 10]⟩ 11).performanceHistory
      = [2, 3, 4, 5, 6, 7, 8, 9, 10, 11]
    ∧ (updateStrategy ⟨0.01, 0.1, "random", [1, 2]⟩ 3).performanceHistory = [1, 2, 3]
    ∧ (updateStrategyAll metacognitiveController
        [1, 2, 3, 4, 5, 6, 7, 8, 9, 10, 11]).performanceHistory.length = 10 :=
  ⟨(performanceHistory_fifo ⟨0.01, 0.1, "random", [1, 2, 3, 4, 5, 6, 7, 8, 9, 10]⟩ 11 []
      (by simp)).2.1 (by simp),
   (performanceHistory_fifo ⟨0.01, 0.1, "random", [1, 2]⟩ 3 [] (by simp)).1 (by simp),
   (performanceHistory_fifo metacognitiveController 0 [1, 2, 3, 4, 5, 6, 7, 8, 9, 10, 11]
      (by simp [metacognitiveController])).2.2.2.2 (by simp)⟩

/-- C4. For every sequence of `N` performance samples, starting from the initial
learning rate 0.01, the learning rate after the `N` consecutive `updateStrategy`
calls is `max(0.001, 0.01 * 0.99^N)` in exact rational arithmetic, whatever the
samples. -/
theorem learningRate_decay (samples : List ℚ) :
    (updateStrategyAll metacognitiveController samples).learningRate
      = max 0.001 (0.01 * 0.99 ^ samples.length) := by
  induction samples using List.reverseRecOn with
  | nil => norm_num [updateStrategyAll, metacognitiveController]
  | append_singleton l a ih =>
    rw [updateStrategyAll_snoc, updateStrategy_learningRate, ih, learningRate_step,
      List.length_append, List.length_singleton, pow_succ, mul_assoc]

end Game4D

namespace Game4D

/-! ## Actions on the active set: claims C5, C6 -/

theorem filter_remove_unique (obj : Body) (before after : List Body)
    (hunique : ∀ o ∈ before ++ after, o.id ≠ obj.id) :
    (before ++ obj :: after).filter (fun o => o.id ≠ obj.id) = before ++ after := by
  have hb : before.filter (fun o => o.id ≠ obj.id) = before :=
    List.filter_eq_self.mpr fun o ho => by
      simpa using hunique o (List.mem_append_left _ ho)
  have ha : after.filter (fun o => o.id ≠ obj.id) = after :=
    List.filter_eq_self.mpr fun o ho => by
      simpa using hunique o (List.mem_append_right _ ho)
  rw [List.filter_append, List.filter_cons, hb, ha]
  simp

theorem splitObject_large (circleMass : ℝ → ℝ) (g : Game) (obj : Body)
    (hr : obj.circleRadius > 10) :
    splitObject circleMass g (some obj)
      = .ok { g with
          world := (g.world.filter fun i => i ≠ obj.id) ++ [g.nextId, g.nextId + 1]
          fourDObjects := (g.fourDObjects.filter fun o => o.id ≠ obj.id) ++
            [{ Matter.Bodies.circle g.nextId (circleMass (obj.circleRadius / Real.sqrt 2))
                (obj.position.x - 5) (obj.position.y - 5) (obj.circleRadius / Real.sqrt 2)
                obj.fillStyle with fourthDimension := obj.fourthDimension },
             { Matter.Bodies.circle (g.nextId + 1) (circleMass (obj.circleRadius / Real.sqrt 2))
                (obj.position.x + 5) (obj.position.y + 5) (obj.circleRadius / Real.sqrt 2)
                obj.fillStyle with fourthDimension := obj.fourthDimension }]
          nextId := g.nextId + 2 } := by
  rw [splitObject, if_pos hr]
  rfl

/-- C5. For every active set that contains a body `obj` exactly once, with
`r = obj.circleRadius`: if `r > 10`, `splitObject(obj)` yields the active set with
`obj` removed (the other bodies kept in order) followed by two new bodies each of
radius `r/sqrt(2)`, centred at `(x-5, y-5)` and `(x+5, y+5)` of the parent's position
and carrying the parent's fill colour and `fourthDimension`, so the set size grows by
exactly 1; if `r ≤ 10`, `splitObject(obj)` leaves the state unchanged. -/
theorem splitObject_spec (circleMass : ℝ → ℝ) (g : Game) (obj : Body)
    (before after : List Body)
    (hset : g.fourDObjects = before ++ obj :: after)
    (hunique : ∀ o ∈ before ++ after, o.id ≠ obj.id) :
    (obj.circleRadius > 10 →
      ∃ g' child1 child2, splitObject circleMass g (some obj) = .ok g'
        ∧ g'.fourDObjects = before ++ after ++ [child1, child2]
        ∧ child1.circleRadius = obj.circleRadius / Real.sqrt 2
        ∧ child2.circleRadius = obj.circleRadius / Real.sqrt 2
        ∧ child1.position = ⟨obj.position.x - 5, obj.position.y - 5⟩
        ∧ child2.position = ⟨obj.position.x + 5, obj.position.y + 5⟩
        ∧ child1.fillStyle = obj.fillStyle ∧ child2.fillStyle = obj.fillStyle
        ∧ child1.fourthDimension = obj.fourthDimension
        ∧ child2.fourthDimension = obj.fourthDimension
        ∧ g'.fourDObjects.length = g.fourDObjects.length + 1)
    ∧ (obj.circleRadius ≤ 10 → splitObject circleMass g (some obj) = .ok g) := by
  constructor
  · intro hr
    rw [splitObject_large circleMass g obj hr]
    refine ⟨_,
      { Matter.Bodies.circle g.nextId (circleMass (obj.circleRadius / Real.sqrt 2))
          (obj.position.x - 5) (obj.position.y - 5) (obj.circleRadius / Real.sqrt 2)
          obj.fillStyle with fourthDimension := obj.fourthDimension },
      { Matter.Bodies.circle (g.nextId + 1) (circleMass (obj.circleRadius / Real.sqrt 2))
          (obj.position.x + 5) (obj.position.y + 5) (obj.circleRadius / Real.sqrt 2)
          obj.fillStyle with fourthDimension := obj.fourthDimension },
      rfl, ?_, rfl, rfl, rfl, rfl, rfl, rfl, rfl, rfl, ?_⟩
    · simp only [hset, filter_remove_unique obj before after hunique]
    · simp only [hset, filter_remove_unique obj before after hunique]
      simp only [List.length_append, List.length_cons, List.length_nil]
      omega
  · intro hr
    simp only [splitObject, if_neg (not_lt.mpr hr)]

/-- Instance of C5: the active set holds one body of radius 20 at `(0,0)`, and one
body of radius 5. -/
theorem splitObject_spec_witness :
    (∃ g' child1 child2,
        splitObject (fun r => r) { emptyGame with fourDObjects := [sampleBody 0 0 0 1 1] }
          (some (sampleBody 0 0 0 1 1)) = .ok g'
        ∧ g'.fourDObjects = [] ++ [] ++ [child1, child2]
        ∧ child1.circleRadius = (sampleBody 0 0 0 1 1).circleRadius / Real.sqrt 2
        ∧ child2.circleRadius = (sampleBody 0 0 0 1 1).circleRadius / Real.sqrt 2
        ∧ child1.position = ⟨(sampleBody 0 0 0 1 1).position.x - 5,
            (sampleBody 0 0 0 1 1).position.y - 5⟩
        ∧ child2.position = ⟨(sampleBody 0 0 0 1 1).position.x + 5,
            (sampleBody 0 0 0 1 1).position.y + 5⟩
        ∧ child1.fillStyle = (sampleBody 0 0 0 1 1).fillStyle
        ∧ child2.fillStyle = (sampleBody 0 0 0 1 1).fillStyle
        ∧ child1.fourthDimension = (sampleBody 0 0 0 1 1).fourthDimension
        ∧ child2.fourthDimension = (sampleBody 0 0 0 1 1).fourthDimension
        ∧ g'.fourDObjects.length
          = ({ emptyGame with fourDObjects := [sampleBody 0 0 0 1 1] } : Game).fourDObjects.length
            + 1)
    ∧ splitObject (fun r => r)
          { emptyGame with fourDObjects := [{ sampleBody 0 0 0 1 1 with circleRadius := 5 }] }
          (some { sampleBody 0 0 0 1 1 with circleRadius := 5 })
        = .ok { emptyGame with
            fourDObjects := [{ sampleBody 0 0 0 1 1 with circleRadius := 5 }] } :=
  ⟨(splitObject_spec (fun r => r) { emptyGame with fourDObjects := [sampleBody 0 0 0 1 1] }
      (sampleBody 0 0 0 1 1) [] [] rfl (by simp)).1 (by norm_num [sampleBody]),
   (splitObject_spec (fun r => r)
      { emptyGame with fourDObjects := [{ sampleBody 0 0 0 1 1 with circleRadius := 5 }] }
      { sampleBody 0 0 0 1 1 with circleRadius := 5 } [] [] rfl (by simp)).2 (by norm_num)⟩

/-- C6 at concrete inputs. On the empty active set, `exploreRandomAction` returns an
action whose `object` is `undefined`. When the draw selects 'merge' (draws all 0) the
tick returns and leaves the state unchanged; when it selects 'split' (draws 1/5),
'accelerate' (2/5), 'decelerate' (3/5) or 'rotate' (4/5) the tick throws a
`TypeError`. -/
theorem simulationTick_empty (circleMass : ℝ → ℝ) :
    (exploreRandomAction emptyGame (fun _ => 1 / 5) 1).1.object = none
    ∧ simulationTick circleMass emptyGame (fun _ => 0) 0 = .ok (some emptyGame)
    ∧ simulationTick circleMass emptyGame (fun _ => 1 / 5) 0 = .error .typeError
    ∧ simulationTick circleMass emptyGame (fun _ => 2 / 5) 0 = .error .typeError
    ∧ simulationTick circleMass emptyGame (fun _ => 3 / 5) 0 = .error .typeError
    ∧ simulationTick circleMass emptyGame (fun _ => 4 / 5) 0 = .error .typeError := by
  have e0 : exploreRandomAction emptyGame (fun _ => 0) 1 = (⟨some .merge, none⟩, 3) := by
    simp [exploreRandomAction, emptyGame, arrayAt]
  have e1 : exploreRandomAction emptyGame (fun _ => 1 / 5) 1 = (⟨some .split, none⟩, 3) := by
    have h : ⌊((1 : ℚ) / 5 * 5)⌋ = 1 := by norm_num
    simp [exploreRandomAction, emptyGame, arrayAt, h]
  have e2 : exploreRandomAction emptyGame (fun _ => 2 / 5) 1
      = (⟨some .accelerate, none⟩, 3) := by
    have h : ⌊((2 : ℚ) / 5 * 5)⌋ = 2 := by norm_num
    simp [exploreRandomAction, emptyGame, arrayAt, h]
  have e3 : exploreRandomAction emptyGame (fun _ => 3 / 5) 1
      = (⟨some .decelerate, none⟩, 3) := by
    have h : ⌊((3 : ℚ) / 5 * 5)⌋ = 3 := by norm_num
    simp [exploreRandomAction, emptyGame, arrayAt, h]
  have e4 : exploreRandomAction emptyGame (fun _ => 4 / 5) 1 = (⟨some .rotate, none⟩, 3) := by
    have h : ⌊((4 : ℚ) / 5 * 5)⌋ = 4 := by norm_num
    simp [exploreRandomAction, emptyGame, arrayAt, h]
  refine ⟨by rw [e1], ?_, ?_, ?_, ?_, ?_⟩
  · simp only [simulationTick, executeAIStrategy, exploitBestAction, e0, ite_self]
    rfl
  · simp only [simulationTick, executeAIStrategy, exploitBestAction, e1, ite_self]
    rfl
  · simp only [simulationTick, executeAIStrategy, exploitBestAction, e2, ite_self]
    rfl
  · simp only [simulationTick, executeAIStrategy, exploitBestAction, e3, ite_self]
    rfl
  · simp only [simulationTick, executeAIStrategy, exploitBestAction, e4, ite_self]
    rfl

end Game4D

namespace Game4D

/-! ## Entanglement: claim C8 -/

theorem mutual_of_fresh (heap : PropertiesHeap) (collection : List ℕ)
    (hfresh : ∀ i, partner heap i = none) : Mutual heap collection := by
  intro a _ b hab
  rw [hfresh a] at hab
  cases hab

/-- On a body without `properties`, as game.js creates them, `entangleObjects` throws
a `TypeError` at its first write. -/
theorem entangleObjects_throws (heap : PropertiesHeap) (X Y : ℕ) (hX : heap X = none) :
    (entangleObjects heap X Y).thrown = some .typeError
    ∧ (entangleObjects heap X Y).heap = heap := by
  simp [entangleObjects, hX]

/-- The first pairing of `createGameObjects` (game.js, line 114), on two bodies made
by `Matter.Bodies.circle`, throws. -/
theorem entangleObjects_circle_bodies_throw :
    (entangleObjects circleHeap 0 1).thrown = some .typeError :=
  (entangleObjects_throws circleHeap 0 1 rfl).1

theorem entangleObjects_returns (heap : PropertiesHeap) (X Y : ℕ)
    (hX : (heap X).isSome = true) (hY : (heap Y).isSome = true) :
    (entangleObjects heap X Y).thrown = none
    ∧ ∀ i, partner (entangleObjects heap X Y).heap i
        = (if i = Y then some X else if i = X then some Y else partner heap i)
      ∧ ((entangleObjects heap X Y).heap i).isSome = (heap i).isSome := by
  obtain ⟨pX, hpX⟩ := Option.isSome_iff_exists.mp hX
  obtain ⟨pY, hpY⟩ := Option.isSome_iff_exists.mp hY
  by_cases hXY : Y = X
  · subst hXY
    refine ⟨by simp [entangleObjects, hpY], fun i => ?_⟩
    by_cases hi : i = Y
    · subst hi
      simp [entangleObjects, partner, hpY]
    · simp [entangleObjects, partner, hpY, hi]
  · refine ⟨by simp [entangleObjects, hpX, hpY, hXY], fun i => ?_⟩
    by_cases hiY : i = Y
    · subst hiY
      simp [entangleObjects, partner, hpX, hpY, hXY]
    · by_cases hiX : i = X
      · subst hiX
        simp [entangleObjects, partner, hpX, hpY, hXY, hiY]
      · simp [entangleObjects, partner, hpX, hpY, hXY, hiY, hiX]

theorem entangleObjects_mutual (heap : PropertiesHeap) (collection : List ℕ) (X Y : ℕ)
    (hm : Mutual heap collection) (hX : PartnerWithin heap X Y) (hY : PartnerWithin heap Y X) :
    Mutual (entangleObjects heap X Y).heap collection := by
  have hret := fun i => ((entangleObjects_returns heap X Y hX.1 hY.1).2 i).1
  have hX := hX.2
  have hY := hY.2
  intro a ha b hab
  rw [hret] at hab ⊢
  by_cases haY : a = Y
  · rw [if_pos haY] at hab
    have hb : b = X := (Option.some.inj hab).symm
    subst hb
    by_cases hbY : b = Y
    · rw [if_pos hbY, haY, hbY]
    · rw [if_neg hbY, if_pos rfl, haY]
  · rw [if_neg haY] at hab
    by_cases haX : a = X
    · rw [if_pos haX] at hab
      have hb : b = Y := (Option.some.inj hab).symm
      rw [if_pos hb, haX]
    · rw [if_neg haX] at hab
      have hba := hm a ha b hab
      by_cases hbY : b = Y
      · exfalso
        rw [hbY] at hba
        rcases hY with h | h | h
        · rw [h] at hba; cases hba
        · rw [h] at hba; exact haY (Option.some.inj hba).symm
        · rw [h] at hba; exact haX (Option.some.inj hba).symm
      · by_cases hbX : b = X
        · exfalso
          rw [hbX] at hba
          rcases hX with h | h | h
          · rw [h] at hba; cases hba
          · rw [h] at hba; exact haX (Option.some.inj hba).symm
          · rw [h] at hba; exact haY (Option.some.inj hba).symm
        · rw [if_neg hbY, if_neg hbX]
          exact hba

theorem entangleAll_mutual (collection : List ℕ) (calls : List (ℕ × ℕ)) :
    ∀ heap : PropertiesHeap, Mutual heap collection → Admissible heap calls
      → (entangleAll heap calls).thrown = none
        ∧ Mutual (entangleAll heap calls).heap collection := by
  induction calls with
  | nil => intro heap hm _; exact ⟨rfl, hm⟩
  | cons call rest ih =>
    intro heap hm hadm
    obtain ⟨h1, h2, hrest⟩ := hadm
    have hthrown := (entangleObjects_returns heap call.1 call.2 h1.1 h2.1).1
    have hstep := ih _ (entangleObjects_mutual heap collection call.1 call.2 hm h1 h2) hrest
    simp only [entangleAll, hthrown]
    exact hstep

theorem freshHeap_partner (i : ℕ) : partner freshHeap i = none := rfl

theorem freshHeap_partnerWithin (x y : ℕ) : PartnerWithin freshHeap x y :=
  ⟨rfl, Or.inl rfl⟩

/-- C8, as stated, fails. From three fresh bodies 0, 1, 2 (each with `properties`,
entanglement null), `entangleObjects(0, 1)` returns and gives a state in which
entanglement is mutual; `entangleObjects(0, 2)` on that state returns and leaves
body 1 entangled with body 0 while body 0 is entangled with body 2. -/
theorem entangle_mutual_counterexample :
    (entangleObjects freshHeap 0 1).thrown = none
    ∧ Mutual (entangleObjects freshHeap 0 1).heap [0, 1, 2]
    ∧ (entangleObjects (entangleObjects freshHeap 0 1).heap 0 2).thrown = none
    ∧ partner (entangleObjects (entangleObjects freshHeap 0 1).heap 0 2).heap 1 = some 0
    ∧ partner (entangleObjects (entangleObjects freshHeap 0 1).heap 0 2).heap 0 = some 2
    ∧ ¬ Mutual (entangleObjects (entangleObjects freshHeap 0 1).heap 0 2).heap [0, 1, 2]
    ∧ (entangleAll freshHeap [(0, 1), (0, 2)]).thrown = none
    ∧ ¬ Mutual (entangleAll freshHeap [(0, 1), (0, 2)]).heap [0, 1, 2] := by
  have h1 : partner (entangleObjects (entangleObjects freshHeap 0 1).heap 0 2).heap 1
      = some 0 := by
    simp [entangleObjects, partner, freshHeap]
  have h0 : partner (entangleObjects (entangleObjects freshHeap 0 1).heap 0 2).heap 0
      = some 2 := by
    simp [entangleObjects, partner, freshHeap]
  have hbad : ¬ Mutual (entangleObjects (entangleObjects freshHeap 0 1).heap 0 2).heap
      [0, 1, 2] := by
    intro h
    have h10 := h 1 (by simp) 0 h1
    rw [h0] at h10
    cases h10
  have hall : entangleAll freshHeap [(0, 1), (0, 2)]
      = { heap := (entangleObjects (entangleObjects freshHeap 0 1).heap 0 2).heap
          thrown := none } := by
    simp [entangleAll, entangleObjects, freshHeap]
  refine ⟨by simp [entangleObjects, freshHeap], ?_, by simp [entangleObjects, freshHeap],
    h1, h0, hbad, by rw [hall], by rw [hall]; exact hbad⟩
  exact entangleObjects_mutual _ _ _ _ (mutual_of_fresh _ _ freshHeap_partner)
    (freshHeap_partnerWithin 0 1) (freshHeap_partnerWithin 1 0)

/-- C8, amended. For every collection of bodies in which every set entanglement is
mutual and every two bodies `X`, `Y` that have a `properties` record and whose
partners before the call, if any, are `X` or `Y`, `entangleObjects(X, Y)` returns
without an exception, afterwards body `X` is entangled with `Y`, body `Y` with `X`,
and every set entanglement in the collection is still mutual; hence entanglement is
mutual in every state reached from freshly created bodies (entanglement null) by a
sequence of `entangleObjects` calls each made on two such bodies, and no call of the
sequence throws. -/
theorem entangle_preserves_mutual (heap fresh : PropertiesHeap) (collection : List ℕ)
    (X Y : ℕ) (calls : List (ℕ × ℕ))
    (hm : Mutual heap collection) (hX : PartnerWithin heap X Y) (hY : PartnerWithin heap Y X)
    (hfresh : ∀ i, partner fresh i = none) (hadm : Admissible fresh calls) :
    (entangleObjects heap X Y).thrown = none
    ∧ partner (entangleObjects heap X Y).heap X = some Y
    ∧ partner (entangleObjects heap X Y).heap Y = some X
    ∧ Mutual (entangleObjects heap X Y).heap collection
    ∧ (entangleAll fresh calls).thrown = none
    ∧ Mutual (entangleAll fresh calls).heap collection := by
  obtain ⟨hthrown, hret⟩ := entangleObjects_returns heap X Y hX.1 hY.1
  refine ⟨hthrown, ?_, ?_, entangleObjects_mutual heap collection X Y hm hX hY,
    entangleAll_mutual collection calls fresh (mutual_of_fresh _ _ hfresh) hadm⟩
  · rw [(hret X).1]
    by_cases h : X = Y
    · rw [if_pos h, h]
    · rw [if_neg h, if_pos rfl]
  · rw [(hret Y).1, if_pos rfl]

/-- Instance of the amended C8: bodies 2 and 3 are entangled in a state where 0 and
1 already are, and the pairs (0, 1), (2, 3) are entangled from fresh bodies. -/
theorem entangle_preserves_mutual_witness :
    (entangleObjects (entangleObjects freshHeap 0 1).heap 2 3).thrown = none
    ∧ partner (entangleObjects (entangleObjects freshHeap 0 1).heap 2 3).heap 2 = some 3
    ∧ partner (entangleObjects (entangleObjects freshHeap 0 1).heap 2 3).heap 3 = some 2
    ∧ Mutual (entangleObjects (entangleObjects freshHeap 0 1).heap 2 3).heap [0, 1, 2, 3]
    ∧ (entangleAll freshHeap [(0, 1), (2, 3)]).thrown = none
    ∧ Mutual (entangleAll freshHeap [(0, 1), (2, 3)]).heap [0, 1, 2, 3] :=
  entangle_preserves_mutual (entangleObjects freshHeap 0 1).heap freshHeap [0, 1, 2, 3] 2 3
    [(0, 1), (2, 3)]
    (entangleObjects_mutual _ _ _ _ (mutual_of_fresh _ _ freshHeap_partner)
      (freshHeap_partnerWithin 0 1) (freshHeap_partnerWithin 1 0))
    ⟨by simp [entangleObjects, freshHeap],
      Or.inl (by simp [entangleObjects, partner, freshHeap])⟩
    ⟨by simp [entangleObjects, freshHeap],
      Or.inl (by simp [entangleObjects, partner, freshHeap])⟩
    freshHeap_partner
    ⟨freshHeap_partnerWithin 0 1, freshHeap_partnerWithin 1 0,
      ⟨by simp [entangleObjects, freshHeap],
        Or.inl (by simp [entangleObjects, partner, freshHeap])⟩,
      ⟨by simp [entangleObjects, freshHeap],
        Or.inl (by simp [entangleObjects, partner, freshHeap])⟩, trivial⟩

end Game4D
